import Mathlib

/-! Shallow embedding of the RapyutaSimulationPlugins odometry component
(`URRBaseOdomComponent`, from `RRBaseOdomComponent.cpp`) and of the mesh-actor
activation logic (`ARRMeshActor::SetActivated` / `IsActivated`, from
`RRMeshActor.h`).  Engine scalars are modelled over `ℝ`; quaternions are
Mathlib's `Quaternion ℝ` (whose Hamilton product has exactly the component
formulas of UE's `FQuat` multiplication, with `re = W`, `imI = X`, `imJ = Y`,
`imK = Z`).  The Gaussian generator draws are passed in as explicit sample
parameters; engine reads (`GetActorLocation`, `GetActorQuat`,
`GetTimeSeconds`) are bundled into a `WorldInput` record. -/

namespace RRSim

/-- UE `FVector`: three scalar components. -/
structure Vec3 where
  x : ℝ
  y : ℝ
  z : ℝ

def Vec3.zero : Vec3 := ⟨0, 0, 0⟩

def Vec3.add (a b : Vec3) : Vec3 := ⟨a.x + b.x, a.y + b.y, a.z + b.z⟩

def Vec3.sub (a b : Vec3) : Vec3 := ⟨a.x - b.x, a.y - b.y, a.z - b.z⟩

def Vec3.smul (r : ℝ) (v : Vec3) : Vec3 := ⟨r * v.x, r * v.y, r * v.z⟩

instance : Add Vec3 := ⟨Vec3.add⟩

instance : Sub Vec3 := ⟨Vec3.sub⟩

instance : SMul ℝ Vec3 := ⟨Vec3.smul⟩

/-- UE `FVector::operator/(float)`: componentwise division. -/
noncomputable def Vec3.divF (v : Vec3) (r : ℝ) : Vec3 := ⟨v.x / r, v.y / r, v.z / r⟩

/-- UE `FVector::CrossProduct`. -/
def Vec3.cross (a b : Vec3) : Vec3 :=
  ⟨a.y * b.z - a.z * b.y, a.z * b.x - a.x * b.z, a.x * b.y - a.y * b.x⟩

@[simp] theorem Vec3.add_x (a b : Vec3) : (a + b).x = a.x + b.x := rfl

@[simp] theorem Vec3.add_y (a b : Vec3) : (a + b).y = a.y + b.y := rfl

@[simp] theorem Vec3.add_z (a b : Vec3) : (a + b).z = a.z + b.z := rfl

@[simp] theorem Vec3.sub_x (a b : Vec3) : (a - b).x = a.x - b.x := rfl

@[simp] theorem Vec3.sub_y (a b : Vec3) : (a - b).y = a.y - b.y := rfl

@[simp] theorem Vec3.sub_z (a b : Vec3) : (a - b).z = a.z - b.z := rfl

@[simp] theorem Vec3.smul_x (r : ℝ) (v : Vec3) : (r • v).x = r * v.x := rfl

@[simp] theorem Vec3.smul_y (r : ℝ) (v : Vec3) : (r • v).y = r * v.y := rfl

@[simp] theorem Vec3.smul_z (r : ℝ) (v : Vec3) : (r • v).z = r * v.z := rfl

@[ext] theorem Vec3.ext' {a b : Vec3} (hx : a.x = b.x) (hy : a.y = b.y) (hz : a.z = b.z) :
    a = b := by
  cases a; cases b; simp_all

/-- Abbreviation for the quaternion type used throughout (`FQuat`). -/
abbrev Quat := Quaternion ℝ

def mkQuat (w x y z : ℝ) : Quat := ⟨w, x, y, z⟩

/-- UE `FQuat::Inverse()`: documented to assume a normalized quaternion, it
returns the conjugate `(-X, -Y, -Z, W)`, i.e. `star`. -/
def quatInverse (q : Quat) : Quat := star q

/-- UE quaternion-vector rotation (`VectorQuaternionRotateVector`):
`T = 2 * (Q.xyz × V)`, `Result = V + W * T + Q.xyz × T`. -/
def quatRotateVector (q : Quat) (v : Vec3) : Vec3 :=
  let qv : Vec3 := ⟨q.imI, q.imJ, q.imK⟩
  let t : Vec3 := (2 : ℝ) • Vec3.cross qv v
  v + q.re • t + Vec3.cross qv t

/-- UE `FQuat::UnrotateVector`: the same formula on the negated imaginary part. -/
def quatUnrotateVector (q : Quat) (v : Vec3) : Vec3 :=
  let qv : Vec3 := ⟨-q.imI, -q.imJ, -q.imK⟩
  let t : Vec3 := (2 : ℝ) • Vec3.cross qv v
  v + q.re • t + Vec3.cross qv t

/-- UE `FQuat::Normalize(Tolerance = SMALL_NUMBER = 1e-8)`: if the squared
norm is at least the tolerance, scale by the inverse square root; otherwise
the quaternion is set to identity. -/
noncomputable def quatNormalize (q : Quat) : Quat :=
  if 1e-8 ≤ Quaternion.normSq q then (1 / Real.sqrt (Quaternion.normSq q)) • q else 1

/-- UE `FRotator(InPitch, InYaw, InRoll).Quaternion()`: half angles in
radians (`DEG_TO_RAD / 2`), then the UE component formula
`X = CR*SP*SY - SR*CP*CY`, `Y = -CR*SP*CY - SR*CP*SY`,
`Z = CR*CP*SY - SR*SP*CY`, `W = CR*CP*CY + SR*SP*SY`. -/
noncomputable def rotatorQuat (pitch yaw roll : ℝ) : Quat :=
  let sp := Real.sin (pitch * (Real.pi / 360))
  let cp := Real.cos (pitch * (Real.pi / 360))
  let sy := Real.sin (yaw * (Real.pi / 360))
  let cy := Real.cos (yaw * (Real.pi / 360))
  let sr := Real.sin (roll * (Real.pi / 360))
  let cr := Real.cos (roll * (Real.pi / 360))
  mkQuat (cr * cp * cy + sr * sp * sy)
    (cr * sp * sy - sr * cp * cy)
    (-(cr * sp * cy) - sr * cp * sy)
    (cr * cp * sy - sr * sp * cy)

/-- Two-argument arctangent, as used by UE `FMath::Atan2`. -/
noncomputable def atan2 (y x : ℝ) : ℝ :=
  if 0 < x then Real.arctan (y / x)
  else if x < 0 then
    (if 0 ≤ y then Real.arctan (y / x) + Real.pi else Real.arctan (y / x) - Real.pi)
  else if 0 < y then Real.pi / 2
  else if y < 0 then -(Real.pi / 2)
  else 0

/-- UE `FRotator::ClampAxis`: reduce an angle in degrees to `[0, 360)`. -/
noncomputable def clampAxis (a : ℝ) : ℝ := a - 360 * (⌊a / 360⌋ : ℤ)

/-- UE `FRotator::NormalizeAxis`: reduce an angle in degrees to `(-180, 180]`. -/
noncomputable def normalizeAxis (a : ℝ) : ℝ :=
  if 180 < clampAxis a then clampAxis a - 360 else clampAxis a

/-- UE `FQuat::Rotator()`: returns `(pitch, yaw, roll)` in degrees, with the
gimbal-lock singularity handling of the engine
(`SINGULARITY_THRESHOLD = 0.4999995`). -/
noncomputable def quatRotator (q : Quat) : ℝ × ℝ × ℝ :=
  let singularityTest := q.imK * q.imI - q.re * q.imJ
  let yawY := 2 * (q.re * q.imK + q.imI * q.imJ)
  let yawX := 1 - 2 * (q.imJ ^ 2 + q.imK ^ 2)
  let radToDeg : ℝ := 180 / Real.pi
  if singularityTest < -0.4999995 then
    let yaw := atan2 yawY yawX * radToDeg
    (-90, yaw, normalizeAxis (-yaw - 2 * atan2 q.imI q.re * radToDeg))
  else if 0.4999995 < singularityTest then
    let yaw := atan2 yawY yawX * radToDeg
    (90, yaw, normalizeAxis (yaw - 2 * atan2 q.imI q.re * radToDeg))
  else
    (Real.arcsin (2 * singularityTest) * radToDeg,
     atan2 yawY yawX * radToDeg,
     atan2 (-2 * (q.re * q.imI + q.imJ * q.imK)) (1 - 2 * (q.imI ^ 2 + q.imK ^ 2)) * radToDeg)

/-- UE `FQuat::Euler()`: `Rotator().Euler()` = `FVector(Roll, Pitch, Yaw)`. -/
noncomputable def quatEuler (q : Quat) : Vec3 :=
  ⟨(quatRotator q).2.2, (quatRotator q).1, (quatRotator q).2.1⟩

/-- UE `FTransform` as used by the component: a translation and a rotation
(only `SetTranslation` / `SetRotation` / getters are exercised). -/
structure Transform3 where
  translation : Vec3
  rotation : Quat

noncomputable def Transform3.identity : Transform3 := ⟨Vec3.zero, 1⟩

/-- `EOdomSource`: whether the odom frame starts from the robot initial pose
(`ENCODER`) or from the world origin (`WORLD`). -/
inductive EOdomSource where
  | ENCODER
  | WORLD
  deriving DecidableEq

/-- The fields of the ROS odometry message `OdomData` that the component
reads or writes (`Header.Stamp`, `Header.FrameId`, `ChildFrameId`,
`Pose.Pose`, `Pose.Covariance`, `Twist.Twist`, `Twist.Covariance`). -/
structure OdomMsg where
  stamp : ℝ
  frameId : String
  childFrameId : String
  posePosition : Vec3
  poseOrientation : Quat
  poseCovariance : Fin 36 → ℝ
  twistLinear : Vec3
  twistAngular : Vec3
  twistCovariance : Fin 36 → ℝ

/-- Configuration properties of `URRBaseOdomComponent` consumed by the
modelled member functions. -/
structure OdomConfig where
  odomSource : EOdomSource
  frameId : String
  childFrameId : String
  bWithNoise : Bool
  bManualUpdate : Bool
  rootOffset : Transform3
  noiseMeanPos : ℝ
  noiseVariancePos : ℝ
  noiseMeanRot : ℝ
  noiseVarianceRot : ℝ

/-- Mutable state of `URRBaseOdomComponent`. -/
structure OdomState where
  odomData : OdomMsg
  initialTransform : Transform3
  previousTransform : Transform3
  previousNoisyTransform : Transform3
  lastUpdatedTime : ℝ
  bIsOdomInitialized : Bool

/-- One tick's draws from the two Gaussian generators: `GaussianRNGPosition`
is drawn twice (x then y), `GaussianRNGRotation` once. -/
structure NoiseSample where
  posX : ℝ
  posY : ℝ
  rot : ℝ

/-- The engine reads performed during one call: `GetOwner()->GetActorLocation()`,
`GetOwner()->GetActorQuat()`, `UGameplayStatics::GetTimeSeconds(GetWorld())`. -/
structure WorldInput where
  actorLocation : Vec3
  actorQuat : Quat
  timeSeconds : ℝ

/-- The six hard-coded diagonal writes of `InitOdom` into a covariance array
(indices 0, 7, 14, 21, 28, 35); the other 30 entries are left as they were. -/
def covDiagWrite (c : Fin 36 → ℝ) : Fin 36 → ℝ :=
  Function.update (Function.update (Function.update (Function.update (Function.update
    (Function.update c 0 1e-5) 7 1e-5) 14 1e12) 21 1e12) 28 1e12) 35 1e-3

/-- `URRBaseOdomComponent::InitOdom`: picks `InitialTransform` from the odom
source policy, publishes it as the first pose, resets both previous
transforms to it, writes the fixed covariance diagonals, marks the component
initialized and stamps `LastUpdatedTime` with the current time.  (The
construction of the two `std::normal_distribution` objects is modelled by the
external `NoiseSample` inputs of `updateOdom`.) -/
noncomputable def initOdom (cfg : OdomConfig) (w : WorldInput) (s : OdomState) : OdomState :=
  let initial : Transform3 :=
    match cfg.odomSource with
    | EOdomSource.ENCODER => ⟨w.actorLocation, w.actorQuat⟩
    | EOdomSource.WORLD => ⟨Vec3.zero, 1⟩
  { s with
    odomData := { s.odomData with
      frameId := cfg.frameId
      childFrameId := cfg.childFrameId
      posePosition := initial.translation
      poseOrientation := initial.rotation
      poseCovariance := covDiagWrite s.odomData.poseCovariance
      twistCovariance := covDiagWrite s.odomData.twistCovariance }
    initialTransform := initial
    previousTransform := initial
    previousNoisyTransform := initial
    bIsOdomInitialized := true
    lastUpdatedTime := w.timeSeconds }

/-- `URRBaseOdomComponent::UpdateOdom(InDeltaTime)`: lazy-initializes if
needed, returns early when `InDeltaTime < 1e-9`, and otherwise integrates the
ground-truth pose delta (relative to `InitialTransform`) into the noisy pose,
renormalizes the rotation, and writes stamp, pose and twist.  The twist is
computed from the pre-root-offset orientation; the root-offset rotation is
right-multiplied into the emitted orientation only afterwards. -/
noncomputable def updateOdom (cfg : OdomConfig) (w : WorldInput) (n : NoiseSample)
    (inDeltaTime : ℝ) (s0 : OdomState) : OdomState :=
  let s := if s0.bIsOdomInitialized then s0 else initOdom cfg w s0
  if inDeltaTime < 1e-9 then s
  else
    let noiseFactor : ℝ := if cfg.bWithNoise then 1 else 0
    let previousEstimatedPos := s.previousNoisyTransform.translation
    let previousEstimatedRot := s.previousNoisyTransform.rotation
    let pos0 := quatUnrotateVector s.initialTransform.rotation
      (w.actorLocation - s.initialTransform.translation)
    let previousPos := s.previousTransform.translation
    let pos := pos0 + previousEstimatedPos - previousPos +
      noiseFactor • (⟨n.posX, n.posY, 0⟩ : Vec3)
    let noiseRot := rotatorQuat 0 0 (noiseFactor * n.rot)
    let rot0 := w.actorQuat * quatInverse s.initialTransform.rotation
    let previousRot := s.previousTransform.rotation
    let rot := quatNormalize (noiseRot * previousEstimatedRot * quatInverse previousRot * rot0)
    { s with
      odomData := { s.odomData with
        stamp := w.timeSeconds
        posePosition := pos + cfg.rootOffset.translation
        poseOrientation := rot * cfg.rootOffset.rotation
        twistLinear := Vec3.divF (quatUnrotateVector rot (pos - previousEstimatedPos)) inDeltaTime
        twistAngular :=
          Vec3.divF (quatEuler (quatNormalize (rot * quatInverse previousEstimatedRot))) inDeltaTime }
      previousTransform := ⟨pos0, rot0⟩
      previousNoisyTransform := ⟨pos, rot⟩ }

/-- `URRBaseOdomComponent::SensorUpdate`: when not in manual-update mode,
reads the current time, calls `UpdateOdom(currentTime - LastUpdatedTime)` and
then unconditionally sets `LastUpdatedTime = currentTime`. -/
noncomputable def sensorUpdate (cfg : OdomConfig) (w : WorldInput) (n : NoiseSample)
    (s : OdomState) : OdomState :=
  if cfg.bManualUpdate then s
  else
    let s1 := updateOdom cfg w n (w.timeSeconds - s.lastUpdatedTime) s
    { s1 with lastUpdatedTime := w.timeSeconds }

/-- `URRBaseOdomComponent::GetOdomTF`: the emitted pose as a transform. -/
def getOdomTF (s : OdomState) : Transform3 :=
  ⟨s.odomData.posePosition, s.odomData.poseOrientation⟩

/-- UE `FIntVector`: integer vector, used for the grid cell index. -/
structure IntVector where
  x : ℤ
  y : ℤ
  z : ℤ
  deriving DecidableEq

/-- `FIntVector::ZeroValue = FIntVector(0, 0, 0)`. -/
def IntVector.zeroValue : IntVector := ⟨0, 0, 0⟩

/-- `FIntVector::NoneValue = FIntVector(INDEX_NONE)` with `INDEX_NONE = -1`. -/
def IntVector.noneValue : IntVector := ⟨-1, -1, -1⟩

/-- The `ARRMeshActor` state touched by `SetActivated` / `IsActivated`:
`CellIdx`, the actor location, and the custom-depth rendering flag.  The
`OnDeactivated` delegate call and the `RAPYUTA_SIM_VISUAL_DEBUG` hidden-in-game
toggle are external side effects outside this state. -/
structure MeshActorState where
  cellIdx : IntVector
  actorLocation : Vec3
  bCustomDepthEnabled : Bool

/-- `ARRMeshActor::IsActivated`: `CellIdx != FIntVector::NoneValue`. -/
def isActivated (a : MeshActorState) : Bool :=
  decide (a.cellIdx ≠ IntVector.noneValue)

/-- `ARRMeshActor::SetActivated`: on deactivation sets `CellIdx` to the None
sentinel and teleports the actor to `(0, 0, -5000)`; on activation restores
`CellIdx` to zero if it was the sentinel; finally mirrors the flag into the
custom-depth setting. -/
def setActivated (a : MeshActorState) (bInIsActivated : Bool) : MeshActorState :=
  let a1 :=
    if bInIsActivated = false then
      { a with cellIdx := IntVector.noneValue, actorLocation := ⟨0, 0, -5000⟩ }
    else if a.cellIdx = IntVector.noneValue then
      { a with cellIdx := IntVector.zeroValue }
    else a
  { a1 with bCustomDepthEnabled := bInIsActivated }

/-! Concrete fixtures used by witnesses and counterexamples. -/

/-- An all-zero odometry message, as the freshly constructed component holds. -/
noncomputable def odomMsg0 : OdomMsg :=
  { stamp := 0
    frameId := ""
    childFrameId := ""
    posePosition := Vec3.zero
    poseOrientation := 1
    poseCovariance := fun _ => 0
    twistLinear := Vec3.zero
    twistAngular := Vec3.zero
    twistCovariance := fun _ => 0 }

/-- A freshly constructed, not yet initialized component state. -/
noncomputable def s0 : OdomState :=
  { odomData := odomMsg0
    initialTransform := Transform3.identity
    previousTransform := Transform3.identity
    previousNoisyTransform := Transform3.identity
    lastUpdatedTime := 0
    bIsOdomInitialized := false }

/-- The same state marked as already initialized. -/
noncomputable def sInit : OdomState := { s0 with bIsOdomInitialized := true }

/-- A baseline configuration: encoder source, noise off, automatic update,
identity root offset. -/
noncomputable def cfg0 : OdomConfig :=
  { odomSource := EOdomSource.ENCODER
    frameId := "odom"
    childFrameId := "base_footprint"
    bWithNoise := false
    bManualUpdate := false
    rootOffset := Transform3.identity
    noiseMeanPos := 0
    noiseVariancePos := 0.01
    noiseMeanRot := 0
    noiseVarianceRot := 0.01 }

/-- `cfg0` with the world odom source. -/
noncomputable def cfgW : OdomConfig := { cfg0 with odomSource := EOdomSource.WORLD }

/-- `cfg0` with noise enabled. -/
noncomputable def cfgN : OdomConfig := { cfg0 with bWithNoise := true }

/-- `cfg0` with a sensor mount offset of one unit along x. -/
noncomputable def cfgR : OdomConfig :=
  { cfg0 with rootOffset := ⟨⟨1, 0, 0⟩, 1⟩ }

/-- A zero noise draw. -/
def noise0 : NoiseSample := ⟨0, 0, 0⟩

/-- World input: body at the origin with identity orientation at time 0. -/
noncomputable def w0 : WorldInput := ⟨Vec3.zero, 1, 0⟩

/-! Helper lemmas about the quaternion operations. -/

theorem quatNormalize_normSq (q : Quat) : Quaternion.normSq (quatNormalize q) = 1 := by
  unfold quatNormalize
  by_cases h : (1e-8 : ℝ) ≤ Quaternion.normSq q
  · rw [if_pos h, Quaternion.normSq_smul]
    have hpos : (0 : ℝ) < Quaternion.normSq q := lt_of_lt_of_le (by norm_num) h
    rw [div_pow, one_pow, Real.sq_sqrt hpos.le]
    field_simp
  · rw [if_neg h, map_one]

theorem quatNormalize_of_normSq_one {q : Quat} (h : Quaternion.normSq q = 1) :
    quatNormalize q = q := by
  unfold quatNormalize
  rw [if_pos (by rw [h]; norm_num), h, Real.sqrt_one]
  norm_num

theorem rotatorQuat_zero : rotatorQuat 0 0 0 = 1 := by
  unfold rotatorQuat mkQuat
  ext <;> simp

/-- World input: body starting away from the world origin, at x = 100. -/
noncomputable def wAway : WorldInput := ⟨⟨100, 0, 0⟩, 1, 0⟩

/-- The fixed covariance diagonal of the spec, as a predicate on a 6×6
row-major covariance array. -/
def covDiagOK (c : Fin 36 → ℝ) : Prop :=
  c 0 = 1e-5 ∧ c 7 = 1e-5 ∧ c 14 = 1e12 ∧ c 21 = 1e12 ∧ c 28 = 1e12 ∧ c 35 = 1e-3

theorem covDiagWrite_ok (c : Fin 36 → ℝ) : covDiagOK (covDiagWrite c) := by
  unfold covDiagOK covDiagWrite
  refine ⟨?_, ?_, ?_, ?_, ?_, ?_⟩ <;> simp [Function.update_apply]

/-- C1 amended: with `odomSource = ENCODER`, immediately after `InitOdom` the
emitted pose equals the body's starting ground-truth pose (the translation and
rotation of `InitialTransform`); it is at the world origin only for bodies
that start there. -/
theorem C1_encoder_first_pose (cfg : OdomConfig) (w : WorldInput) (s : OdomState)
    (h : cfg.odomSource = EOdomSource.ENCODER) :
    (initOdom cfg w s).odomData.posePosition = w.actorLocation ∧
    (initOdom cfg w s).odomData.poseOrientation = w.actorQuat := by
  unfold initOdom
  rw [h]
  exact ⟨rfl, rfl⟩

/-- C1 witness: concrete encoder-source initialization at start pose
(100, 0, 0). -/
theorem C1_encoder_first_pose_witness :
    (initOdom cfg0 wAway s0).odomData.posePosition = wAway.actorLocation ∧
    (initOdom cfg0 wAway s0).odomData.poseOrientation = wAway.actorQuat :=
  C1_encoder_first_pose cfg0 wAway s0 rfl

/-- C1 counterexample: with `odomSource = ENCODER` and the body starting at
(100, 0, 0), the first emitted position is (100, 0, 0), not the origin. -/
theorem C1_counterexample :
    (initOdom cfg0 wAway s0).odomData.posePosition ≠ Vec3.zero := by
  intro h
  have h100 : (initOdom cfg0 wAway s0).odomData.posePosition = ⟨100, 0, 0⟩ := rfl
  rw [h100] at h
  have hx := congrArg Vec3.x h
  simp only [Vec3.zero] at hx
  norm_num at hx

/-- C8: with `odomSource = WORLD`, `InitOdom` sets `InitialTransform` to the
identity transform (zero translation, identity rotation), whatever the body's
starting ground-truth pose. -/
theorem C8_world_initial_transform_identity (cfg : OdomConfig) (w : WorldInput) (s : OdomState)
    (h : cfg.odomSource = EOdomSource.WORLD) :
    (initOdom cfg w s).initialTransform = Transform3.identity := by
  unfold initOdom
  rw [h]
  rfl

/-- C8 witness: world-source initialization with the body starting away from
the origin still yields the identity `InitialTransform`. -/
theorem C8_world_initial_transform_identity_witness :
    (initOdom cfgW wAway s0).initialTransform = Transform3.identity :=
  C8_world_initial_transform_identity cfgW wAway s0 rfl

/-- C5: `InitOdom` writes the diagonal [1e-5, 1e-5, 1e12, 1e12, 1e12, 1e-3]
into both the pose and the twist covariance, and `UpdateOdom` — whatever its
inputs — leaves a conforming covariance conforming (it never writes the
covariance fields; its lazy-init path rewrites the same constants). -/
theorem C5_covariance_diagonals (cfg : OdomConfig) (w : WorldInput) (n : NoiseSample)
    (dt : ℝ) (s : OdomState)
    (h : covDiagOK s.odomData.poseCovariance ∧ covDiagOK s.odomData.twistCovariance) :
    (covDiagOK (initOdom cfg w s).odomData.poseCovariance ∧
      covDiagOK (initOdom cfg w s).odomData.twistCovariance) ∧
    (covDiagOK (updateOdom cfg w n dt s).odomData.poseCovariance ∧
      covDiagOK (updateOdom cfg w n dt s).odomData.twistCovariance) := by
  refine ⟨⟨covDiagWrite_ok _, covDiagWrite_ok _⟩, ?_⟩
  unfold updateOdom
  by_cases hi : s.bIsOdomInitialized <;> by_cases hdt : dt < 1e-9 <;>
    simp only [hi, hdt, if_true, if_false, Bool.false_eq_true, ite_true, ite_false] <;>
    first
      | exact ⟨covDiagWrite_ok _, covDiagWrite_ok _⟩
      | exact h

/-- C5 witness: after a concrete initialization, one further update keeps the
fixed covariance diagonals. -/
theorem C5_covariance_diagonals_witness :
    (covDiagOK (initOdom cfg0 w0 (initOdom cfg0 w0 s0)).odomData.poseCovariance ∧
      covDiagOK (initOdom cfg0 w0 (initOdom cfg0 w0 s0)).odomData.twistCovariance) ∧
    (covDiagOK (updateOdom cfg0 w0 noise0 1 (initOdom cfg0 w0 s0)).odomData.poseCovariance ∧
      covDiagOK (updateOdom cfg0 w0 noise0 1 (initOdom cfg0 w0 s0)).odomData.twistCovariance) :=
  C5_covariance_diagonals cfg0 w0 noise0 1 (initOdom cfg0 w0 s0)
    ⟨covDiagWrite_ok _, covDiagWrite_ok _⟩

/-- C10: for the mesh actor, `IsActivated` holds exactly when `CellIdx`
differs from the None sentinel; `SetActivated(false)` sets the sentinel and
teleports the actor to (0, 0, -5000), deactivating it; `SetActivated(true)`
always leaves the actor activated, restoring `CellIdx` to zero if it was the
sentinel. -/
theorem C10_mesh_activation (a : MeshActorState) :
    (isActivated a = true ↔ a.cellIdx ≠ IntVector.noneValue) ∧
    (setActivated a false).cellIdx = IntVector.noneValue ∧
    (setActivated a false).actorLocation = ⟨0, 0, -5000⟩ ∧
    isActivated (setActivated a false) = false ∧
    isActivated (setActivated a true) = true ∧
    (a.cellIdx = IntVector.noneValue → (setActivated a true).cellIdx = IntVector.zeroValue) := by
  refine ⟨by simp [isActivated], ?_, ?_, ?_, ?_, ?_⟩ <;>
    by_cases h : a.cellIdx = IntVector.noneValue <;>
      simp [setActivated, isActivated, h] <;> decide

/-- A deactivated mesh-actor state (sentinel cell index). -/
def meshNone : MeshActorState := ⟨IntVector.noneValue, Vec3.zero, false⟩

/-- C10 witness: the activation properties at a concrete deactivated state. -/
theorem C10_mesh_activation_witness :
    (isActivated meshNone = true ↔ meshNone.cellIdx ≠ IntVector.noneValue) ∧
    (setActivated meshNone false).cellIdx = IntVector.noneValue ∧
    (setActivated meshNone false).actorLocation = ⟨0, 0, -5000⟩ ∧
    isActivated (setActivated meshNone false) = false ∧
    isActivated (setActivated meshNone true) = true ∧
    (meshNone.cellIdx = IntVector.noneValue →
      (setActivated meshNone true).cellIdx = IntVector.zeroValue) :=
  C10_mesh_activation meshNone

/-- World input at time 1e-9 (an elapsed time of exactly the guard epsilon
against `sInit`, whose `lastUpdatedTime` is 0). -/
noncomputable def wEps : WorldInput := ⟨Vec3.zero, 1, 1e-9⟩

/-- C2 counterexample: from an initialized state with `lastUpdatedTime = 0`,
a (non-manual) sensor update at current time 1e-9 has elapsed time
`deltaTime = 1e-9 ≤ 1e-9`, yet both the emitted sample (its stamp) and
`lastUpdatedTime` change: the guard is strict (`< 1e-9`), and
`SensorUpdate` overwrites `LastUpdatedTime` unconditionally. -/
theorem C2_counterexample :
    wEps.timeSeconds - sInit.lastUpdatedTime ≤ 1e-9 ∧
    (sensorUpdate cfg0 wEps noise0 sInit).odomData.stamp ≠ sInit.odomData.stamp ∧
    (sensorUpdate cfg0 wEps noise0 sInit).lastUpdatedTime ≠ sInit.lastUpdatedTime := by
  have hdt : wEps.timeSeconds - sInit.lastUpdatedTime = 1e-9 := by
    simp [wEps, sInit, s0]
  refine ⟨by rw [hdt], ?_, ?_⟩
  · have hstamp : (sensorUpdate cfg0 wEps noise0 sInit).odomData.stamp = wEps.timeSeconds := by
      unfold sensorUpdate
      rw [if_neg (by simp [cfg0])]
      unfold updateOdom
      rw [if_pos (show sInit.bIsOdomInitialized = true from rfl), if_neg (by rw [hdt]; norm_num)]
    rw [hstamp]
    simp [wEps, sInit, s0, odomMsg0]
    norm_num
  · have hlast : (sensorUpdate cfg0 wEps noise0 sInit).lastUpdatedTime = wEps.timeSeconds := by
      unfold sensorUpdate
      rw [if_neg (by simp [cfg0])]
    rw [hlast]
    simp [wEps, sInit, s0]
    norm_num

/-- C2 amended: for an already-initialized state, a non-manual sensor update
whose elapsed time `currentTime - lastUpdatedTime` is strictly below 1e-9
leaves every field of the emitted sample and of the estimator transforms
unchanged, but still overwrites `lastUpdatedTime` with the current time. -/
theorem C2_small_dt_keeps_sample (cfg : OdomConfig) (w : WorldInput) (n : NoiseSample)
    (s : OdomState) (hm : cfg.bManualUpdate = false) (hi : s.bIsOdomInitialized = true)
    (hdt : w.timeSeconds - s.lastUpdatedTime < 1e-9) :
    (sensorUpdate cfg w n s).odomData = s.odomData ∧
    (sensorUpdate cfg w n s).initialTransform = s.initialTransform ∧
    (sensorUpdate cfg w n s).previousTransform = s.previousTransform ∧
    (sensorUpdate cfg w n s).previousNoisyTransform = s.previousNoisyTransform ∧
    (sensorUpdate cfg w n s).lastUpdatedTime = w.timeSeconds := by
  have hs : sensorUpdate cfg w n s =
      { updateOdom cfg w n (w.timeSeconds - s.lastUpdatedTime) s with
        lastUpdatedTime := w.timeSeconds } := by
    unfold sensorUpdate
    rw [if_neg (by simp [hm])]
  have hu : updateOdom cfg w n (w.timeSeconds - s.lastUpdatedTime) s = s := by
    unfold updateOdom
    rw [if_pos hi, if_pos hdt]
  rw [hs, hu]
  exact ⟨rfl, rfl, rfl, rfl, rfl⟩

/-- C2 witness: concrete small-elapsed-time sensor update. -/
theorem C2_small_dt_keeps_sample_witness :
    (sensorUpdate cfg0 ⟨Vec3.zero, 1, 1e-10⟩ noise0 sInit).odomData = sInit.odomData ∧
    (sensorUpdate cfg0 ⟨Vec3.zero, 1, 1e-10⟩ noise0 sInit).initialTransform =
      sInit.initialTransform ∧
    (sensorUpdate cfg0 ⟨Vec3.zero, 1, 1e-10⟩ noise0 sInit).previousTransform =
      sInit.previousTransform ∧
    (sensorUpdate cfg0 ⟨Vec3.zero, 1, 1e-10⟩ noise0 sInit).previousNoisyTransform =
      sInit.previousNoisyTransform ∧
    (sensorUpdate cfg0 ⟨Vec3.zero, 1, 1e-10⟩ noise0 sInit).lastUpdatedTime =
      (⟨Vec3.zero, 1, 1e-10⟩ : WorldInput).timeSeconds :=
  C2_small_dt_keeps_sample cfg0 ⟨Vec3.zero, 1, 1e-10⟩ noise0 sInit rfl rfl
    (by simp [sInit, s0]; norm_num)

/-- C6: every `UpdateOdom` call that passes the `deltaTime` guard emits an
orientation of exactly unit squared norm (the model is over ℝ, so the
floating-point tolerance of the claim sharpens to exact unit norm): the noisy
rotation is renormalized before being stored, and right-multiplying the
unit-norm root-offset rotation preserves the norm. -/
theorem C6_unit_orientation (cfg : OdomConfig) (w : WorldInput) (n : NoiseSample)
    (dt : ℝ) (s : OdomState) (hroot : Quaternion.normSq cfg.rootOffset.rotation = 1)
    (hdt : 1e-9 ≤ dt) :
    Quaternion.normSq ((updateOdom cfg w n dt s).odomData.poseOrientation) = 1 := by
  have hor : (updateOdom cfg w n dt s).odomData.poseOrientation =
      (updateOdom cfg w n dt s).previousNoisyTransform.rotation * cfg.rootOffset.rotation := by
    unfold updateOdom
    rw [if_neg (not_lt.mpr hdt)]
  rw [hor, map_mul, hroot, mul_one]
  have hrot : ∃ q, (updateOdom cfg w n dt s).previousNoisyTransform.rotation =
      quatNormalize q := by
    unfold updateOdom
    rw [if_neg (not_lt.mpr hdt)]
    exact ⟨_, rfl⟩
  obtain ⟨q, hq⟩ := hrot
  rw [hq]
  exact quatNormalize_normSq q

/-- C6 witness: a concrete guarded update emits a unit-norm orientation. -/
theorem C6_unit_orientation_witness :
    Quaternion.normSq ((updateOdom cfg0 w0 noise0 1 sInit).odomData.poseOrientation) = 1 :=
  C6_unit_orientation cfg0 w0 noise0 1 sInit (by simp [cfg0, Transform3.identity])
    (by norm_num)

/-! Named intermediate quantities of `UpdateOdom` (its local variables `pos`,
`rot` before and after noise), used to state projection lemmas for the
guarded, already-initialized path. -/

/-- `UpdateOdom`'s local `pos` before the noise line: the ground-truth
position expressed in `InitialTransform`'s frame. -/
noncomputable def updTruePos (w : WorldInput) (s : OdomState) : Vec3 :=
  quatUnrotateVector s.initialTransform.rotation
    (w.actorLocation - s.initialTransform.translation)

/-- `UpdateOdom`'s local `pos` after the incremental-noise line. -/
noncomputable def updNoisyPos (cfg : OdomConfig) (w : WorldInput) (n : NoiseSample)
    (s : OdomState) : Vec3 :=
  updTruePos w s + s.previousNoisyTransform.translation - s.previousTransform.translation +
    (if cfg.bWithNoise then (1 : ℝ) else 0) • (⟨n.posX, n.posY, 0⟩ : Vec3)

/-- `UpdateOdom`'s local `rot` before the noise composition. -/
noncomputable def updTrueRot (w : WorldInput) (s : OdomState) : Quat :=
  w.actorQuat * quatInverse s.initialTransform.rotation

/-- `UpdateOdom`'s local `rot` after noise composition and renormalization. -/
noncomputable def updNoisyRot (cfg : OdomConfig) (w : WorldInput) (n : NoiseSample)
    (s : OdomState) : Quat :=
  quatNormalize (rotatorQuat 0 0 ((if cfg.bWithNoise then (1 : ℝ) else 0) * n.rot) *
    s.previousNoisyTransform.rotation * quatInverse s.previousTransform.rotation *
    updTrueRot w s)

theorem updateOdom_prevNoisy (cfg : OdomConfig) (w : WorldInput) (n : NoiseSample)
    (dt : ℝ) (s : OdomState) (hi : s.bIsOdomInitialized = true) (hdt : 1e-9 ≤ dt) :
    (updateOdom cfg w n dt s).previousNoisyTransform =
      ⟨updNoisyPos cfg w n s, updNoisyRot cfg w n s⟩ := by
  unfold updateOdom updNoisyPos updNoisyRot updTruePos updTrueRot
  rw [if_pos hi, if_neg (not_lt.mpr hdt)]

theorem updateOdom_prevTransform (cfg : OdomConfig) (w : WorldInput) (n : NoiseSample)
    (dt : ℝ) (s : OdomState) (hi : s.bIsOdomInitialized = true) (hdt : 1e-9 ≤ dt) :
    (updateOdom cfg w n dt s).previousTransform = ⟨updTruePos w s, updTrueRot w s⟩ := by
  unfold updateOdom updTruePos updTrueRot
  rw [if_pos hi, if_neg (not_lt.mpr hdt)]

theorem updateOdom_posePosition (cfg : OdomConfig) (w : WorldInput) (n : NoiseSample)
    (dt : ℝ) (s : OdomState) (hi : s.bIsOdomInitialized = true) (hdt : 1e-9 ≤ dt) :
    (updateOdom cfg w n dt s).odomData.posePosition =
      updNoisyPos cfg w n s + cfg.rootOffset.translation := by
  unfold updateOdom updNoisyPos updTruePos
  rw [if_pos hi, if_neg (not_lt.mpr hdt)]

theorem updateOdom_poseOrientation (cfg : OdomConfig) (w : WorldInput) (n : NoiseSample)
    (dt : ℝ) (s : OdomState) (hi : s.bIsOdomInitialized = true) (hdt : 1e-9 ≤ dt) :
    (updateOdom cfg w n dt s).odomData.poseOrientation =
      updNoisyRot cfg w n s * cfg.rootOffset.rotation := by
  unfold updateOdom updNoisyRot updTrueRot
  rw [if_pos hi, if_neg (not_lt.mpr hdt)]

theorem updateOdom_twistLinear (cfg : OdomConfig) (w : WorldInput) (n : NoiseSample)
    (dt : ℝ) (s : OdomState) (hi : s.bIsOdomInitialized = true) (hdt : 1e-9 ≤ dt) :
    (updateOdom cfg w n dt s).odomData.twistLinear =
      Vec3.divF (quatUnrotateVector (updNoisyRot cfg w n s)
        (updNoisyPos cfg w n s - s.previousNoisyTransform.translation)) dt := by
  unfold updateOdom updNoisyPos updNoisyRot updTruePos updTrueRot
  rw [if_pos hi, if_neg (not_lt.mpr hdt)]

/-- C7: in every guarded update, the linear twist divides the noisy position
delta, unrotated by the new PRE-root-offset orientation (the rotation stored
into `PreviousNoisyTransform`), by `deltaTime`; the emitted orientation is
that same stored rotation right-multiplied by `RootOffset.GetRotation()`
afterwards, so the mount offset never enters the twist. -/
theorem C7_twist_before_root_offset (cfg : OdomConfig) (w : WorldInput) (n : NoiseSample)
    (dt : ℝ) (s : OdomState) (hi : s.bIsOdomInitialized = true) (hdt : 1e-9 ≤ dt) :
    (updateOdom cfg w n dt s).odomData.twistLinear =
      Vec3.divF
        (quatUnrotateVector (updateOdom cfg w n dt s).previousNoisyTransform.rotation
          ((updateOdom cfg w n dt s).previousNoisyTransform.translation -
            s.previousNoisyTransform.translation)) dt ∧
    (updateOdom cfg w n dt s).odomData.poseOrientation =
      (updateOdom cfg w n dt s).previousNoisyTransform.rotation * cfg.rootOffset.rotation := by
  rw [updateOdom_twistLinear cfg w n dt s hi hdt, updateOdom_poseOrientation cfg w n dt s hi hdt,
    updateOdom_prevNoisy cfg w n dt s hi hdt]
  exact ⟨rfl, rfl⟩

/-- C7 witness: the twist/orientation ordering at a concrete input. -/
theorem C7_twist_before_root_offset_witness :
    (updateOdom cfg0 w0 noise0 1 sInit).odomData.twistLinear =
      Vec3.divF
        (quatUnrotateVector (updateOdom cfg0 w0 noise0 1 sInit).previousNoisyTransform.rotation
          ((updateOdom cfg0 w0 noise0 1 sInit).previousNoisyTransform.translation -
            sInit.previousNoisyTransform.translation)) 1 ∧
    (updateOdom cfg0 w0 noise0 1 sInit).odomData.poseOrientation =
      (updateOdom cfg0 w0 noise0 1 sInit).previousNoisyTransform.rotation *
        cfg0.rootOffset.rotation :=
  C7_twist_before_root_offset cfg0 w0 noise0 1 sInit rfl (by norm_num)

@[simp] theorem mkQuat_re (w x y z : ℝ) : (mkQuat w x y z).re = w := rfl

@[simp] theorem mkQuat_imI (w x y z : ℝ) : (mkQuat w x y z).imI = x := rfl

@[simp] theorem mkQuat_imJ (w x y z : ℝ) : (mkQuat w x y z).imJ = y := rfl

@[simp] theorem mkQuat_imK (w x y z : ℝ) : (mkQuat w x y z).imK = z := rfl

/-- World input: body moved to (1, 0, 0) with identity orientation, at time 1. -/
noncomputable def w1 : WorldInput := ⟨⟨1, 0, 0⟩, 1, 1⟩

/-- World input: body at the origin, yawed 180° (quaternion (W,X,Y,Z) =
(0,0,0,1)), at time 1. -/
noncomputable def w180 : WorldInput := ⟨Vec3.zero, mkQuat 0 0 0 1, 1⟩

theorem normSq_yaw180 : Quaternion.normSq (mkQuat 0 0 0 1) = 1 := by
  rw [Quaternion.normSq_def']
  norm_num

/-- C3: with noise disabled, every guarded update keeps
`PreviousNoisyTransform` equal to `PreviousTransform` (given the
reachable-state facts that the stored and ground-truth rotations are unit
quaternions), and the emitted pose is exactly the ground-truth pose expressed
relative to `InitialTransform`, shifted by the fixed root offset; `InitOdom`
establishes the equality of the two transforms. -/
theorem C3_noise_free_passthrough (cfg : OdomConfig) (w : WorldInput) (n : NoiseSample)
    (dt : ℝ) (s : OdomState) (hn : cfg.bWithNoise = false)
    (hi : s.bIsOdomInitialized = true) (hdt : 1e-9 ≤ dt)
    (heq : s.previousNoisyTransform = s.previousTransform)
    (hprev : Quaternion.normSq s.previousTransform.rotation = 1)
    (hinit : Quaternion.normSq s.initialTransform.rotation = 1)
    (hq : Quaternion.normSq w.actorQuat = 1) :
    (updateOdom cfg w n dt s).previousNoisyTransform =
      (updateOdom cfg w n dt s).previousTransform ∧
    (updateOdom cfg w n dt s).odomData.posePosition =
      quatUnrotateVector s.initialTransform.rotation
        (w.actorLocation - s.initialTransform.translation) + cfg.rootOffset.translation ∧
    (updateOdom cfg w n dt s).odomData.poseOrientation =
      (w.actorQuat * quatInverse s.initialTransform.rotation) * cfg.rootOffset.rotation ∧
    (initOdom cfg w s).previousNoisyTransform = (initOdom cfg w s).previousTransform := by
  have hpos : updNoisyPos cfg w n s = updTruePos w s := by
    unfold updNoisyPos
    rw [heq, hn]
    ext <;> simp
  have htrot : Quaternion.normSq (updTrueRot w s) = 1 := by
    unfold updTrueRot quatInverse
    rw [map_mul, Quaternion.normSq_star, hinit, hq, one_mul]
  have hrot : updNoisyRot cfg w n s = updTrueRot w s := by
    unfold updNoisyRot quatInverse
    rw [heq, hn]
    simp only [Bool.false_eq_true, if_false, zero_mul, rotatorQuat_zero, one_mul]
    rw [Quaternion.self_mul_star, hprev, Quaternion.coe_one, one_mul]
    exact quatNormalize_of_normSq_one htrot
  refine ⟨?_, ?_, ?_, rfl⟩
  · rw [updateOdom_prevNoisy cfg w n dt s hi hdt, updateOdom_prevTransform cfg w n dt s hi hdt,
      hpos, hrot]
  · rw [updateOdom_posePosition cfg w n dt s hi hdt, hpos]
    rfl
  · rw [updateOdom_poseOrientation cfg w n dt s hi hdt, hrot]
    rfl

/-- C3 witness: a concrete noise-free update from the identity state with the
body moved to (1, 0, 0). -/
theorem C3_noise_free_passthrough_witness :
    (updateOdom cfg0 w1 noise0 1 sInit).previousNoisyTransform =
      (updateOdom cfg0 w1 noise0 1 sInit).previousTransform ∧
    (updateOdom cfg0 w1 noise0 1 sInit).odomData.posePosition =
      quatUnrotateVector sInit.initialTransform.rotation
        (w1.actorLocation - sInit.initialTransform.translation) + cfg0.rootOffset.translation ∧
    (updateOdom cfg0 w1 noise0 1 sInit).odomData.poseOrientation =
      (w1.actorQuat * quatInverse sInit.initialTransform.rotation) * cfg0.rootOffset.rotation ∧
    (initOdom cfg0 w1 sInit).previousNoisyTransform =
      (initOdom cfg0 w1 sInit).previousTransform :=
  C3_noise_free_passthrough cfg0 w1 noise0 1 sInit rfl rfl (by norm_num) rfl
    (by simp [sInit, s0, Transform3.identity]) (by simp [sInit, s0, Transform3.identity])
    (by simp [w1])

/-- C4: evaluation of the code at the failing input.  With noise enabled and
rotation-noise draw 180 (degrees) from the identity state, the emitted
orientation is the quaternion (W,X,Y,Z) = (0,-1,0,0): a pure 180° ROLL about
the X axis (nonzero `imI`), with zero yaw component (`imK = 0`).  The
Gaussian draw enters `FRotator(0, 0, draw)` whose constructor order is
(Pitch, Yaw, Roll), so the noise lands on roll — not on yaw as the spec (and
the covariance design, which marks roll/pitch unobservable) intends. -/
theorem C4_rotation_noise_is_roll :
    (updateOdom cfgN w1 ⟨0, 0, 180⟩ 1 sInit).odomData.poseOrientation = mkQuat 0 (-1) 0 0 ∧
    (mkQuat 0 (-1) 0 0 : Quat).imI = -1 ∧ (mkQuat 0 (-1) 0 0 : Quat).imJ = 0 ∧
    (mkQuat 0 (-1) 0 0 : Quat).imK = 0 := by
  have hroll : rotatorQuat 0 0 180 = mkQuat 0 (-1) 0 0 := by
    have h2 : (180 : ℝ) * (Real.pi / 360) = Real.pi / 2 := by ring
    simp only [rotatorQuat, h2, zero_mul, Real.sin_zero, Real.cos_zero, Real.sin_pi_div_two,
      Real.cos_pi_div_two]
    ext <;> simp
  have hns : Quaternion.normSq (mkQuat 0 (-1) 0 0) = 1 := by
    rw [Quaternion.normSq_def']
    norm_num
  have hrot : updNoisyRot cfgN w1 ⟨0, 0, 180⟩ sInit = mkQuat 0 (-1) 0 0 := by
    unfold updNoisyRot updTrueRot quatInverse
    simp only [cfgN, cfg0, w1, sInit, s0, Transform3.identity, if_true, one_mul, mul_one,
      star_one]
    rw [hroll]
    exact quatNormalize_of_normSq_one hns
  refine ⟨?_, by simp, by simp, by simp⟩
  rw [updateOdom_poseOrientation cfgN w1 ⟨0, 0, 180⟩ 1 sInit rfl (by norm_num), hrot]
  simp only [cfgN, cfg0, Transform3.identity, mul_one]

/-- C9 (implicit): `UpdateOdom` adds `RootOffset.GetTranslation()` to the
emitted position as-is, in the odometry reference frame — it is never rotated
by the body's current orientation; consequently, for a body yawed 180° with a
unit-x mount offset, the emitted position differs from the physical
(body-frame) sensor position. -/
theorem C9_root_offset_unrotated (cfg : OdomConfig) (w : WorldInput) (n : NoiseSample)
    (dt : ℝ) (s : OdomState) (hi : s.bIsOdomInitialized = true) (hdt : 1e-9 ≤ dt) :
    (updateOdom cfg w n dt s).odomData.posePosition =
      (updateOdom cfg w n dt s).previousNoisyTransform.translation +
        cfg.rootOffset.translation ∧
    (updateOdom cfgR w180 noise0 1 sInit).odomData.posePosition ≠
      (updateOdom cfgR w180 noise0 1 sInit).previousNoisyTransform.translation +
        quatRotateVector (updateOdom cfgR w180 noise0 1 sInit).previousNoisyTransform.rotation
          cfgR.rootOffset.translation := by
  constructor
  · rw [updateOdom_posePosition cfg w n dt s hi hdt, updateOdom_prevNoisy cfg w n dt s hi hdt]
  · have hrot : updNoisyRot cfgR w180 noise0 sInit = mkQuat 0 0 0 1 := by
      unfold updNoisyRot updTrueRot quatInverse
      simp only [cfgR, cfg0, w180, noise0, sInit, s0, Transform3.identity, Bool.false_eq_true,
        if_false, zero_mul, rotatorQuat_zero, one_mul, mul_one, star_one]
      exact quatNormalize_of_normSq_one normSq_yaw180
    rw [updateOdom_posePosition cfgR w180 noise0 1 sInit rfl (by norm_num),
      updateOdom_prevNoisy cfgR w180 noise0 1 sInit rfl (by norm_num)]
    intro h
    have hx := congrArg Vec3.x h
    rw [hrot] at hx
    simp [quatRotateVector, Vec3.cross, cfgR, cfg0] at hx

/-- C9 witness: the unrotated-offset equation at a concrete input. -/
theorem C9_root_offset_unrotated_witness :
    (updateOdom cfg0 w0 noise0 1 sInit).odomData.posePosition =
      (updateOdom cfg0 w0 noise0 1 sInit).previousNoisyTransform.translation +
        cfg0.rootOffset.translation ∧
    (updateOdom cfgR w180 noise0 1 sInit).odomData.posePosition ≠
      (updateOdom cfgR w180 noise0 1 sInit).previousNoisyTransform.translation +
        quatRotateVector (updateOdom cfgR w180 noise0 1 sInit).previousNoisyTransform.rotation
          cfgR.rootOffset.translation :=
  C9_root_offset_unrotated cfg0 w0 noise0 1 sInit rfl (by norm_num)

end RRSim
